import Mathlib

/-!
Shallow embedding of the Team-DED Genshin autobot core in Lean 4.

Each definition mirrors one Python function or method of the repository:
pure computations become Lean functions, Python exceptions become an
explicit `Except PyExc` result, Python `None` becomes `Option.none`,
and machine state (the pipeline's running flag, its cycle counter) is
passed explicitly.  The perception layers (OpenCV, EasyOCR, YOLO) are
external collaborators: their outputs are parameters of the embedded
functions, exactly at the boundary where the Python code consumes them.
-/

/-- The Python exception kinds raised or caught by the embedded code. -/
inductive PyExc where
  | valueError
  | typeError
  | runtimeError
  | indexError
  | attributeError
  | keyboardInterrupt
  deriving DecidableEq, Repr

/-- Equality on `Except` results is decidable when it is on both the
error and the value type (used to evaluate embedded functions at
concrete inputs). -/
instance {ε α : Type} [DecidableEq ε] [DecidableEq α] :
    DecidableEq (Except ε α) := fun a b =>
  match a, b with
  | Except.error e, Except.error f =>
    if h : e = f then isTrue (by rw [h])
    else isFalse (by intro hc; cases hc; exact h rfl)
  | Except.error _, Except.ok _ => isFalse (by intro hc; cases hc)
  | Except.ok _, Except.error _ => isFalse (by intro hc; cases hc)
  | Except.ok x, Except.ok y =>
    if h : x = y then isTrue (by rw [h])
    else isFalse (by intro hc; cases hc; exact h rfl)

/-! ## detection_enemy.py -/

/-- One detected enemy, as built by `detect_enemies` in
`detection_enemy.py`: only the `'type'` field (the YOLO class id,
`int(class_id)`) is consulted by `get_battle_strategy`. -/
structure Enemy where
  type : Int
  deriving DecidableEq, Repr

/-- `get_battle_strategy` from `detection_enemy.py` (lines 39-51):
empty list is falsy (`if not enemies`), then class-id membership tests
in priority order boss (0), status enemy (1), otherwise plain. -/
def get_battle_strategy (enemies : List Enemy) : String :=
  if enemies.isEmpty then "no_enemies"
  else
    let enemy_types := enemies.map (·.type)
    if enemy_types.contains 0 then "focus_boss"
    else if enemy_types.contains 1 then "focus_status_enemies"
    else "focus_normal_enemies"

/-! ## genshin_autobot/core/entities/character.py — CharacterHealth -/

/-- `CharacterHealth` dataclass (`character.py` lines 20-31). -/
structure CharacterHealth where
  current : Int
  maximum : Int
  deriving DecidableEq, Repr

/-- `CharacterHealth.percentage` (`character.py` lines 33-42): guards
`maximum <= 0` with `0.0`, otherwise `current / maximum` (true
division, embedded over ℚ). -/
def CharacterHealth.percentage (h : CharacterHealth) : ℚ :=
  if h.maximum ≤ 0 then 0
  else (h.current : ℚ) / (h.maximum : ℚ)

/-- `CharacterHealth.is_critical` (`character.py` lines 44-51):
`percentage < 0.3`. -/
def CharacterHealth.is_critical (h : CharacterHealth) : Bool :=
  decide (h.percentage < 3 / 10)

/-! ## genshin_autobot/utils/geometry_utils.py -/

/-- Fuel-driven linear search for the integer square root: the largest
`r` with `r * r ≤ n`, reached by incrementing from the accumulator
while the next square still fits. -/
def sqrtIter : Nat → Nat → Nat → Nat
  | 0, _, r => r
  | fuel + 1, n, r =>
    if (r + 1) * (r + 1) ≤ n then sqrtIter fuel n (r + 1) else r

/-- `⌊√n⌋`, computed structurally so concrete inputs evaluate in the
kernel. -/
def floorSqrt (n : Nat) : Nat := sqrtIter n n 0

/-- `round(np.sqrt(n))` for a nonnegative integer radicand: the nearest
integer to √n.  With `r = ⌊√n⌋`, the value rounds down exactly when
`n ≤ r² + r` (the midpoint `(r + 1/2)² = r² + r + 1/4` is never an
integer, so no tie-breaking case arises). -/
def roundSqrt (n : Nat) : Nat :=
  let r := floorSqrt n
  if n ≤ r * r + r then r else r + 1

/-- `get_center_coords` from `geometry_utils.py` (lines 14-78).
Corners are embedded as integer pairs (the structure and numeric-type
checks of lines 42-51 always pass on this representation).  Raises
`ValueError` when fewer than 3 corner pairs are supplied (`not corners
or len(corners) < 3`); otherwise computes
`lnx = round(sqrt(abs((x1-x0)² - (y1-y0)²))) // 2` over the first edge,
`lny` likewise over the second edge, and returns
`(x0 + lnx, y0 + lny)`. -/
def get_center_coords (corners : List (Int × Int)) :
    Except PyExc (Int × Int) :=
  match corners with
  | c0 :: c1 :: c2 :: _ =>
    let lnx : Nat :=
      roundSqrt ((c1.1 - c0.1) ^ 2 - (c1.2 - c0.2) ^ 2).natAbs / 2
    let lny : Nat :=
      roundSqrt ((c2.1 - c1.1) ^ 2 - (c2.2 - c1.2) ^ 2).natAbs / 2
    Except.ok (c0.1 + lnx, c0.2 + lny)
  | _ => Except.error PyExc.valueError

/-! ## genshin_autobot/core/entities/character.py — check_health -/

/-- ASCII whitespace stripped by Python's `str.strip()` and tolerated
by `int()`. -/
def isPySpace (c : Char) : Bool :=
  c = ' ' || c = '\t' || c = '\n' || c = '\x0d' || c = '\x0b' || c = '\x0c'

/-- Python `str.strip()` on the character list of a string. -/
def pyStrip (cs : List Char) : List Char :=
  ((cs.dropWhile isPySpace).reverse.dropWhile isPySpace).reverse

/-- Python `str.split(sep)` for a one-character separator, on character
lists: splitting keeps empty pieces, and a string containing the
separator always yields at least two pieces. -/
def splitOnChar (sep : Char) : List Char → List (List Char)
  | [] => [[]]
  | c :: rest =>
    match splitOnChar sep rest with
    | [] => [[c]]
    | piece :: pieces =>
      if c = sep then [] :: piece :: pieces
      else (c :: piece) :: pieces

/-- Value of a list of ASCII digits read left to right. -/
def digitsToNat (cs : List Char) : Nat :=
  cs.foldl (fun acc c => acc * 10 + (c.toNat - 48)) 0

/-- CPython `int(s)` on an ASCII decimal literal: strip surrounding
whitespace, allow one optional sign, then require a non-empty run of
digits; anything else fails (in Python: raises `ValueError`). -/
def pyParseInt (s : List Char) : Option Int :=
  let cs := pyStrip s
  let signAndDigits : Int × List Char :=
    match cs with
    | '-' :: rest => (-1, rest)
    | '+' :: rest => (1, rest)
    | _ => (1, cs)
  let ds := signAndDigits.2
  if !ds.isEmpty && ds.all Char.isDigit then
    some (signAndDigits.1 * digitsToNat ds)
  else none

/-- `int(s)` as the Python expression behaves: a parse failure raises
`ValueError`. -/
def pyInt (s : List Char) : Except PyExc Int :=
  match pyParseInt s with
  | some n => Except.ok n
  | none => Except.error PyExc.valueError

/-- Python list indexing `l[i]` for `i ≥ 0`: out of range raises
`IndexError`. -/
def pyIndex {α : Type} (l : List α) (i : Nat) : Except PyExc α :=
  match l[i]? with
  | some v => Except.ok v
  | none => Except.error PyExc.indexError

/-- Body of the `try` block of `CharacterStateChecker.check_health`
(`character.py` lines 127-144), parameterized by the texts the OCR
engine returned for the cropped health-bar region (the code reads
`results[0][1]`, the text of the first OCR hit).  `if not results:
return None`; `if '/' not in text: return None`; then
`parts = text.split('/')`, `int(parts[0].strip())`,
`int(parts[1].strip())`. -/
def check_health_body (ocrTexts : List (List Char)) :
    Except PyExc (Option CharacterHealth) :=
  match ocrTexts with
  | [] => Except.ok none
  | text :: _ =>
    if !(text.contains '/') then Except.ok none
    else
      let parts := splitOnChar '/' text
      match pyIndex parts 0 with
      | Except.error e => Except.error e
      | Except.ok p0 =>
        match pyIndex parts 1 with
        | Except.error e => Except.error e
        | Except.ok p1 =>
          match pyInt (pyStrip p0) with
          | Except.error e => Except.error e
          | Except.ok current =>
            match pyInt (pyStrip p1) with
            | Except.error e => Except.error e
            | Except.ok maximum => Except.ok (some ⟨current, maximum⟩)

/-- `CharacterStateChecker.check_health` (`character.py` lines
109-146): the `try` body above wrapped in its handler, which catches
exactly `IndexError`, `ValueError` and `AttributeError` and turns them
into `None`. -/
def check_health (ocrTexts : List (List Char)) :
    Except PyExc (Option CharacterHealth) :=
  match check_health_body ocrTexts with
  | Except.ok v => Except.ok v
  | Except.error e =>
    if e = PyExc.indexError ∨ e = PyExc.valueError ∨
        e = PyExc.attributeError then
      Except.ok none
    else Except.error e

/-- Specification-side characterization of `check_health` on a
non-empty OCR result: a reading is produced exactly when the first
text contains a `/` and its first two `/`-separated pieces parse as
integers after stripping; everything after the second piece is
ignored. -/
def healthFromText (text : List Char) : Option CharacterHealth :=
  if !(text.contains '/') then none
  else
    let parts := splitOnChar '/' text
    match parts[0]?, parts[1]? with
    | some p0, some p1 =>
      match pyParseInt (pyStrip p0), pyParseInt (pyStrip p1) with
      | some c, some m => some ⟨c, m⟩
      | _, _ => none
    | _, _ => none

/-! ## genshin_autobot/core/use_cases/events_checker.py -/

/-- `EventType` enum (`events_checker.py` lines 19-26).  The members
are bare tags: none of them carries a payload. -/
inductive EventType where
  | dungeonInvite
  | dungeonActivate
  | squadComplete
  deriving DecidableEq, Repr

/-- Python `str.lower()` restricted to the alphabets the keyword list
uses: ASCII letters and the Cyrillic block А-Я (plus Ё). -/
def pyLowerChar (c : Char) : Char :=
  if 'A' ≤ c ∧ c ≤ 'Z' then Char.ofNat (c.toNat + 32)
  else if 'А' ≤ c ∧ c ≤ 'Я' then Char.ofNat (c.toNat + 32)
  else if c = 'Ё' then 'ё'
  else c

/-- `text.lower()` on a character list. -/
def pyLower (cs : List Char) : List Char := cs.map pyLowerChar

/-- The bilingual keyword list of `_is_squad_complete_text`
(`events_checker.py` lines 160-167). -/
def squad_keywords : List (List Char) :=
  ["squad".toList, "отряд".toList, "complete".toList,
   "завершен".toList, "ready".toList, "готов".toList]

/-- Python substring containment `needle in hay` on character lists:
`needle` occurs contiguously somewhere in `hay`. -/
def hasSubstring : List Char → List Char → Bool
  | hay, needle =>
    match hay with
    | [] => needle.isEmpty
    | _ :: rest => needle.isPrefixOf hay || hasSubstring rest needle

/-- `EventsChecker._is_squad_complete_text` (`events_checker.py` lines
151-169): lowercases the OCR text and tests each keyword for
substring containment (Python `keyword in text_lower`). -/
def is_squad_complete_text (text : List Char) : Bool :=
  squad_keywords.any (fun keyword => hasSubstring (pyLower text) keyword)

/-- `EventsChecker.get_squad_completion_coords` (`events_checker.py`
lines 115-129): walks the text-to-coordinates mapping in insertion
order and returns the corner list of the first squad-completion text,
`None` when no text qualifies. -/
def get_squad_completion_coords
    (text_coords : List (List Char × List (Int × Int))) :
    Option (List (Int × Int)) :=
  match text_coords with
  | [] => none
  | (text, coords) :: rest =>
    if is_squad_complete_text text then some coords
    else get_squad_completion_coords rest

/-- `EventsChecker._check_event_button` (`events_checker.py` lines
131-149): the template-matching branch is an explicit placeholder that
always returns `False`. -/
def check_event_button (event_type : EventType) : Bool := false

/-- `EventsChecker.check_events` (`events_checker.py` lines 64-93).
The two template checks return `False`, so nothing is appended; the
squad check at line 90 calls `self.get_squad_completion_coordinates()`,
but the class defines no attribute of that name (the helper defined at
line 115 is `get_squad_completion_coords`), so Python's attribute
lookup raises `AttributeError` before anything can be returned. -/
def check_events (text_coords : List (List Char × List (Int × Int))) :
    Except PyExc (List EventType) :=
  let events : List EventType := []
  let events :=
    if check_event_button EventType.dungeonInvite then
      events ++ [EventType.dungeonInvite]
    else events
  let events :=
    if check_event_button EventType.dungeonActivate then
      events ++ [EventType.dungeonActivate]
    else events
  Except.error PyExc.attributeError

/-! ## genshin_autobot/infrastructure/vision/image_matcher.py and the
legacy template listeners -/

/-- `ImageMatcher.match_template` (`image_matcher.py` lines 53-99),
parameterized by the outputs of the external OpenCV calls: `imageSize`
and `templateSize` are the `.size` of the two arrays, `maxVal`/`maxLoc`
are what `cv2.minMaxLoc` returned on the correlation map, `threshold`
is the optional per-call threshold and `selfThreshold` the one set at
construction.  Empty inputs raise `ValueError`; otherwise the match is
returned exactly when `max_val >= threshold`, else `None`. -/
def ImageMatcher.match_template (imageSize templateSize : Nat)
    (maxVal : ℚ) (maxLoc : Int × Int) (threshold : Option ℚ)
    (selfThreshold : ℚ) : Except PyExc (Option (Int × Int × ℚ)) :=
  if imageSize = 0 then Except.error PyExc.valueError
  else if templateSize = 0 then Except.error PyExc.valueError
  else
    let thr := threshold.getD selfThreshold
    if thr ≤ maxVal then Except.ok (some (maxLoc.1, maxLoc.2, maxVal))
    else Except.ok none

/-- `round(im_h * 0.2)` for a pixel height `im_h`: the exact value
`im_h / 5` has fractional part in `{0, .2, .4, .6, .8}`, so
round-to-nearest never meets the half-way tie case and equals the
floor when `im_h % 5 ≤ 2`, the floor plus one otherwise. -/
def roundFifth (im_h : Nat) : Int :=
  if im_h % 5 ≤ 2 then (im_h / 5 : Nat) else (im_h / 5 : Nat) + 1

/-- The vertical-position test of `event_button_listen`
(`event_listing.py` line 41): with `center = im_h // 2` and
`percent = round(im_h * 0.2)`, both the top-left y and the
bottom-right y of the located template must lie strictly inside
`(center - percent, center + percent)`. -/
def vertical_band_ok (im_h : Nat) (top_left_y bottom_right_y : Int) :
    Bool :=
  let center : Int := (im_h / 2 : Nat)
  let percent : Int := roundFifth im_h
  decide (center + percent > bottom_right_y ∧
    bottom_right_y > center - percent) &&
  decide (center + percent > top_left_y ∧ top_left_y > center - percent)

/-- `event_button_listen` (`event_listing.py` lines 5-42),
parameterized by the per-method best-match top-left corners the OpenCV
calls produced (`candidates`, one per comparison method, in method
order) and the template height `h`.  The first candidate whose
position passes the vertical-band test returns the confirmation
string; if none passes, the function falls off the end (`None`).  No
correlation-score threshold is consulted anywhere. -/
def event_button_listen (im_h : Nat) (h : Int) :
    List (Int × Int) → Option String
  | [] => none
  | top_left :: rest =>
    if vertical_band_ok im_h top_left.2 (top_left.2 + h) then
      some "Подтверждаю, можно нажимать"
    else event_button_listen im_h h rest

/-! ## genshin_autobot/core/use_cases/pipeline.py and game_controller.py -/

/-- `Pipeline.start` (`pipeline.py` lines 87-93): unconditionally sets
`_is_running = True` and logs; it performs no state check and raises
nothing, so the embedded result is always `ok` with the new flag. -/
def Pipeline.start (is_running : Bool) : Except PyExc Bool :=
  Except.ok true

/-- `GameController.start_game` (`game_controller.py` lines 42-58):
raises `RuntimeError` when the controller is already running,
otherwise sets the flag. -/
def GameController.start_game (is_running : Bool) : Except PyExc Bool :=
  if is_running then Except.error PyExc.runtimeError
  else Except.ok true

/-- What one `execute_cycle()` call inside the `run` loop does, seen
from the loop: returns normally, raises `KeyboardInterrupt`, or raises
some other exception. -/
inductive CycleOutcome where
  | normal
  | interrupt
  | failure
  deriving DecidableEq, Repr

/-- How the embedded `runLoop` left the `while`. -/
inductive LoopExit where
  | finished
  | interrupted
  | errored
  | outOfFuel
  deriving DecidableEq, Repr

/-- How `Pipeline.run` as a whole ended. -/
inductive ExitKind where
  | completed
  | interrupted
  | errored
  | valueErrored
  | outOfFuel
  deriving DecidableEq, Repr

/-- Observable result of one `Pipeline.run` call: the final
`_is_running` flag, the final `cycle_count`, and how the call ended. -/
structure RunResult where
  is_running : Bool
  cycle_count : Nat
  exitKind : ExitKind
  deriving DecidableEq, Repr

/-- Truthiness of `max_cycles` in `if max_cycles and cycle_count >=
max_cycles` (`pipeline.py` line 174): `None` and `0` are falsy. -/
def capHit (max_cycles : Option Int) (cycle_count : Nat) : Bool :=
  match max_cycles with
  | none => false
  | some m => decide (m ≠ 0) && decide ((cycle_count : Int) ≥ m)

/-- The guard `max_cycles is not None and max_cycles < 0`
(`pipeline.py` line 164). -/
def pyNegative (max_cycles : Option Int) : Bool :=
  match max_cycles with
  | none => false
  | some m => decide (m < 0)

/-- The `while self._is_running` loop of `Pipeline.run` (`pipeline.py`
lines 172-180), with explicit fuel so the embedding is total: each
iteration re-checks the flag, applies the cap test, then runs one
cycle whose outcome the `outcomes` trace dictates.  Fuel exhaustion
means the loop was still going (the Python loop would simply
continue). -/
def runLoop (max_cycles : Option Int) (outcomes : Nat → CycleOutcome) :
    Nat → Bool → Nat → Bool × Nat × LoopExit
  | 0, running, count => (running, count, LoopExit.outOfFuel)
  | fuel + 1, running, count =>
    if running = false then (running, count, LoopExit.finished)
    else if capHit max_cycles count then (running, count, LoopExit.finished)
    else
      match outcomes count with
      | CycleOutcome.normal =>
        runLoop max_cycles outcomes fuel running (count + 1)
      | CycleOutcome.interrupt => (running, count, LoopExit.interrupted)
      | CycleOutcome.failure => (running, count, LoopExit.errored)

/-- `Pipeline.run` (`pipeline.py` lines 152-184): reject strictly
negative `max_cycles` with `ValueError` (before `start()` runs, so the
flag keeps its prior value), then `start()`, then the loop; the
`except KeyboardInterrupt` arm swallows the interrupt and the
`finally` arm runs `stop()` — which sets the flag to `False` — on the
break, interrupt and error paths alike. -/
def Pipeline.run (max_cycles : Option Int)
    (outcomes : Nat → CycleOutcome) (fuel : Nat) (initRunning : Bool) :
    RunResult :=
  if pyNegative max_cycles then
    ⟨initRunning, 0, ExitKind.valueErrored⟩
  else
    let r := runLoop max_cycles outcomes fuel true 0
    match r.2.2 with
    | LoopExit.outOfFuel => ⟨r.1, r.2.1, ExitKind.outOfFuel⟩
    | LoopExit.finished => ⟨false, r.2.1, ExitKind.completed⟩
    | LoopExit.interrupted => ⟨false, r.2.1, ExitKind.interrupted⟩
    | LoopExit.errored => ⟨false, r.2.1, ExitKind.errored⟩

/-! ## Theorems for the enemy-strategy and health-entity claims -/

/-- `check_health` on a non-empty OCR result equals the
`healthFromText` characterization of its first text: every error the
`try` body can raise (`IndexError` from indexing, `ValueError` from
`int()`) is in the caught set and becomes `None`. -/
theorem check_health_cons (t : List Char) (ts : List (List Char)) :
    check_health (t :: ts) = Except.ok (healthFromText t) := by
  unfold check_health check_health_body healthFromText
  cases hcon : t.contains '/' with
  | false =>
    have hmem : ¬ ('/' ∈ t) := by simpa using hcon
    simp [hmem]
  | true =>
    simp only [hcon, Bool.not_true, Bool.false_eq_true, if_false]
    cases h0 : (splitOnChar '/' t)[0]? with
    | none => simp [pyIndex, h0]
    | some p0 =>
      cases h1 : (splitOnChar '/' t)[1]? with
      | none => simp [pyIndex, h0, h1]
      | some p1 =>
        cases hp0 : pyParseInt (pyStrip p0) with
        | none => simp [pyIndex, pyInt, h0, h1, hp0]
        | some c =>
          cases hp1 : pyParseInt (pyStrip p1) with
          | none => simp [pyIndex, pyInt, h0, h1, hp0, hp1]
          | some m => simp [pyIndex, pyInt, h0, h1, hp0, hp1]

/-- C7: `get_battle_strategy` returns the boss-focus strategy whenever
any enemy has type 0; else the status-focus strategy whenever any enemy
has type 1; else the normal-focus strategy for any non-empty list; and
the no-enemies response for the empty list. -/
theorem get_battle_strategy_priority :
    (∀ es : List Enemy, (0 : Int) ∈ es.map Enemy.type →
      get_battle_strategy es = "focus_boss") ∧
    (∀ es : List Enemy, (0 : Int) ∉ es.map Enemy.type →
      (1 : Int) ∈ es.map Enemy.type →
      get_battle_strategy es = "focus_status_enemies") ∧
    (∀ es : List Enemy, es ≠ [] → (0 : Int) ∉ es.map Enemy.type →
      (1 : Int) ∉ es.map Enemy.type →
      get_battle_strategy es = "focus_normal_enemies") ∧
    get_battle_strategy [] = "no_enemies" := by
  refine ⟨?_, ?_, ?_, rfl⟩
  · intro es h0
    have hne : ¬ es.isEmpty := by
      cases es with
      | nil => simp at h0
      | cons a t => simp [List.isEmpty]
    have hex : ∃ a ∈ es, a.type = 0 := by simpa using h0
    simp [get_battle_strategy, hne, hex]
  · intro es h0 h1
    have hne : ¬ es.isEmpty := by
      cases es with
      | nil => simp at h1
      | cons a t => simp [List.isEmpty]
    have hex0 : ¬ ∃ a ∈ es, a.type = 0 := by simpa using h0
    have hex1 : ∃ a ∈ es, a.type = 1 := by simpa using h1
    simp [get_battle_strategy, hne, hex0, hex1]
  · intro es hne h0 h1
    have hne' : ¬ es.isEmpty := by
      cases es with
      | nil => simp at hne
      | cons a t => simp [List.isEmpty]
    have hex0 : ¬ ∃ a ∈ es, a.type = 0 := by simpa using h0
    have hex1 : ¬ ∃ a ∈ es, a.type = 1 := by simpa using h1
    simp [get_battle_strategy, hne', hex0, hex1]

/-- Witness for C7 at concrete enemy lists: a mixed list with a boss
yields boss focus, a status/plain list yields status focus, a plain
list yields normal focus. -/
theorem get_battle_strategy_priority_witness :
    get_battle_strategy [⟨0⟩, ⟨1⟩, ⟨2⟩] = "focus_boss" ∧
    get_battle_strategy [⟨1⟩, ⟨2⟩] = "focus_status_enemies" ∧
    get_battle_strategy [⟨2⟩] = "focus_normal_enemies" :=
  ⟨get_battle_strategy_priority.1 [⟨0⟩, ⟨1⟩, ⟨2⟩] (by decide),
   get_battle_strategy_priority.2.1 [⟨1⟩, ⟨2⟩] (by decide) (by decide),
   get_battle_strategy_priority.2.2.1 [⟨2⟩] (by decide) (by decide)
     (by decide)⟩

/-- C10: `CharacterHealth.percentage` is total — for non-positive
`maximum` it returns 0.0 instead of dividing — and `is_critical` is
consequently true for every reading with non-positive maximum. -/
theorem percentage_total_on_nonpositive_maximum
    (c m : Int) (h : m ≤ 0) :
    CharacterHealth.percentage ⟨c, m⟩ = 0 ∧
    CharacterHealth.is_critical ⟨c, m⟩ = true := by
  constructor
  · simp [CharacterHealth.percentage, h]
  · simp [CharacterHealth.is_critical, CharacterHealth.percentage, h]

/-- Witness for C10 at a reading with full current health but zero
maximum. -/
theorem percentage_total_on_nonpositive_maximum_witness :
    CharacterHealth.percentage ⟨5000, 0⟩ = 0 ∧
    CharacterHealth.is_critical ⟨5000, 0⟩ = true :=
  percentage_total_on_nonpositive_maximum 5000 0 (by decide)

/-- C8: on the axis-aligned square `[[0,0],[10,0],[10,10],[0,10]]` the
corner-offset centroid estimate returns exactly `(5, 5)`, and every
input with fewer than 3 corner pairs raises `ValueError`. -/
theorem get_center_coords_square_and_short_input :
    get_center_coords [(0, 0), (10, 0), (10, 10), (0, 10)] =
      Except.ok (5, 5) ∧
    (∀ cs : List (Int × Int), cs.length < 3 →
      get_center_coords cs = Except.error PyExc.valueError) := by
  constructor
  · decide
  · intro cs hlen
    match cs with
    | [] => rfl
    | [a] => rfl
    | [a, b] => rfl
    | a :: b :: c :: t => simp at hlen; omega

/-- Witness for C8: the two-corner input raises `ValueError`. -/
theorem get_center_coords_square_and_short_input_witness :
    get_center_coords [(0, 0), (10, 0)] = Except.error PyExc.valueError :=
  get_center_coords_square_and_short_input.2 [(0, 0), (10, 0)] (by decide)

/-- C2: `check_health` never propagates an exception, whatever the OCR
engine returned: every input yields a normal (`Except.ok`) return, and
each malformed shape the claim enumerates — empty result list, first
text with no `/`, non-numeric halves around the `/` — gives `None`. -/
theorem check_health_never_raises :
    (∀ ocrTexts : List (List Char), (check_health ocrTexts).isOk = true) ∧
    check_health [] = Except.ok none ∧
    (∀ t ts, t.contains '/' = false →
      check_health (t :: ts) = Except.ok none) ∧
    (∀ t ts p0 p1, (splitOnChar '/' t)[0]? = some p0 →
      (splitOnChar '/' t)[1]? = some p1 →
      pyParseInt (pyStrip p0) = none ∨ pyParseInt (pyStrip p1) = none →
      check_health (t :: ts) = Except.ok none) := by
  refine ⟨?_, rfl, ?_, ?_⟩
  · intro ocrTexts
    cases ocrTexts with
    | nil => rfl
    | cons t ts => rw [check_health_cons]; rfl
  · intro t ts h
    have hmem : ¬ ('/' ∈ t) := by simpa using h
    rw [check_health_cons]
    simp [healthFromText, hmem]
  · intro t ts p0 p1 h0 h1 hbad
    rw [check_health_cons]
    unfold healthFromText
    cases hcon : t.contains '/' with
    | false =>
      have hmem : ¬ ('/' ∈ t) := by simpa using hcon
      simp [hmem]
    | true =>
      simp only [hcon, Bool.not_true, Bool.false_eq_true, if_false,
        h0, h1]
      rcases hbad with hp | hp
      · simp [hp]
      · cases hq : pyParseInt (pyStrip p0) with
        | none => simp [hq]
        | some c => simp [hq, hp]

/-- Witness for C2 at concrete OCR outputs: a well-formed reading
returns normally, while a slash-free text and non-numeric halves both
return `None`. -/
theorem check_health_never_raises_witness :
    (check_health ["42/100".toList]).isOk = true ∧
    check_health ["hello".toList] = Except.ok none ∧
    check_health ["abc/def".toList] = Except.ok none :=
  ⟨check_health_never_raises.1 ["42/100".toList],
   check_health_never_raises.2.2.1 "hello".toList [] (by decide),
   check_health_never_raises.2.2.2 "abc/def".toList [] "abc".toList
     "def".toList (by decide) (by decide) (Or.inl (by decide))⟩

/-- C5 counterexample: the OCR text `"1/2/3"` contains two `/`
separators, yet `check_health` returns the reading `1/2` built from
the first two pieces instead of `None`. -/
theorem check_health_two_slashes_counterexample :
    check_health ["1/2/3".toList] =
      Except.ok (some { current := 1, maximum := 2 }) := by
  rw [check_health_cons]
  decide

/-- C5 amended: `check_health` returns a reading exactly when the first
OCR text contains at least one `/` and the first two `/`-separated
pieces parse as integers after stripping; pieces beyond the second —
including extra `/` separators — are ignored, and the empty OCR result
gives `None`. -/
theorem check_health_split_characterization :
    (∀ t ts, check_health (t :: ts) = Except.ok (healthFromText t)) ∧
    check_health [] = Except.ok none ∧
    check_health [" 42 / 100 / 7".toList] =
      Except.ok (some { current := 42, maximum := 100 }) := by
  refine ⟨fun t ts => check_health_cons t ts, rfl, ?_⟩
  rw [check_health_cons]
  decide

/-- C1: `EventsChecker.check_events` raises `AttributeError` on every
frame and text mapping: its squad-completion check calls the undefined
attribute `get_squad_completion_coordinates` (the defined helper is
`get_squad_completion_coords`), so the event list is never returned. -/
theorem check_events_always_raises :
    ∀ text_coords, check_events text_coords =
      Except.error PyExc.attributeError :=
  fun _ => rfl

/-- C3 counterexample: with non-empty inputs, a per-call threshold of
0.8 and a best correlation of 0.9 located at the very top of a
100-pixel-tall frame (top-left y = 0, bottom y = 5 for a 5-pixel
template), `match_template` returns the match even though the
vertical-band test of the listener rejects that position — the claimed
conjunction of both conditions does not hold for the matcher. -/
theorem match_template_ignores_vertical_band :
    ImageMatcher.match_template 100 25 (9 / 10) (0, 0) (some (8 / 10))
        (8 / 10) =
      Except.ok (some (0, 0, 9 / 10)) ∧
    vertical_band_ok 100 0 5 = false := by
  constructor
  · norm_num [ImageMatcher.match_template, Option.getD]
  · decide

/-- C3 amended: `match_template` accepts exactly when the score
reaches the resolved threshold, with no positional constraint, and
below threshold it returns `None` rather than an error; the
vertical-band constraint lives only in `event_button_listen`, which
confirms exactly when some method's best-match position passes the
band test and consults no score threshold. -/
theorem match_template_score_only_and_band_in_listener :
    (∀ (imageSize templateSize : Nat) (maxVal : ℚ) (maxLoc : Int × Int)
      (threshold : Option ℚ) (selfThreshold : ℚ),
      imageSize ≠ 0 → templateSize ≠ 0 →
      (ImageMatcher.match_template imageSize templateSize maxVal maxLoc
          threshold selfThreshold =
        Except.ok (some (maxLoc.1, maxLoc.2, maxVal)) ↔
        threshold.getD selfThreshold ≤ maxVal)) ∧
    (∀ (imageSize templateSize : Nat) (maxVal : ℚ) (maxLoc : Int × Int)
      (threshold : Option ℚ) (selfThreshold : ℚ),
      imageSize ≠ 0 → templateSize ≠ 0 →
      ¬ threshold.getD selfThreshold ≤ maxVal →
      ImageMatcher.match_template imageSize templateSize maxVal maxLoc
        threshold selfThreshold = Except.ok none) ∧
    (∀ (im_h : Nat) (h : Int) (candidates : List (Int × Int)),
      (event_button_listen im_h h candidates).isSome = true ↔
        ∃ tl ∈ candidates,
          vertical_band_ok im_h tl.2 (tl.2 + h) = true) := by
  refine ⟨?_, ?_, ?_⟩
  · intro isz tsz mv loc thr st h1 h2
    by_cases hth : thr.getD st ≤ mv
    · simp [ImageMatcher.match_template, h1, h2, hth]
    · simp [ImageMatcher.match_template, h1, h2, hth]
  · intro isz tsz mv loc thr st h1 h2 hth
    simp [ImageMatcher.match_template, h1, h2, hth]
  · intro im_h h cs
    induction cs with
    | nil => simp [event_button_listen]
    | cons tl rest ih =>
      by_cases hb : vertical_band_ok im_h tl.2 (tl.2 + h) = true
      · simp [event_button_listen, hb]
      · simp [event_button_listen, hb, ih]

/-- Witness for the amended C3 at concrete inputs: a below-threshold
score returns `None` (no error), and the acceptance test for an
out-of-band position reduces to the score comparison alone. -/
theorem match_template_score_only_witness :
    ImageMatcher.match_template 100 25 (1 / 2) (3, 40) none (8 / 10) =
      Except.ok none ∧
    (ImageMatcher.match_template 100 25 (9 / 10) (3, 0) none (8 / 10) =
        Except.ok (some (3, 0, 9 / 10)) ↔ (8 / 10 : ℚ) ≤ 9 / 10) :=
  ⟨match_template_score_only_and_band_in_listener.2.1 100 25 (1 / 2)
      (3, 40) none (8 / 10) (by decide) (by decide) (by norm_num),
   match_template_score_only_and_band_in_listener.1 100 25 (9 / 10)
      (3, 0) none (8 / 10) (by decide) (by decide)⟩

/-- C4 counterexample: `Pipeline.start` called while the pipeline is
already running returns normally (it just sets the flag again) instead
of signalling an already-running failure. -/
theorem pipeline_start_silently_succeeds_when_running :
    Pipeline.start true = Except.ok true := rfl

/-- C4 amended: `Pipeline.start` is silently idempotent — it
unconditionally sets the running flag and never fails — while the
already-running `RuntimeError` of the spec is raised only by
`GameController.start_game`. -/
theorem start_is_unchecked_but_start_game_checks :
    (∀ is_running : Bool, Pipeline.start is_running = Except.ok true) ∧
    GameController.start_game true = Except.error PyExc.runtimeError ∧
    GameController.start_game false = Except.ok true :=
  ⟨fun _ => rfl, rfl, rfl⟩

/-- C6: whenever `Pipeline.run` ends by completion (cap reached or
loop condition cleared) or by a `KeyboardInterrupt` from the loop, the
`finally` arm has run `stop()` and the running flag is `False`. -/
theorem run_clears_flag_on_listed_exits :
    ∀ (max_cycles : Option Int) (outcomes : Nat → CycleOutcome)
      (fuel : Nat) (init : Bool),
      (Pipeline.run max_cycles outcomes fuel init).exitKind =
          ExitKind.completed ∨
      (Pipeline.run max_cycles outcomes fuel init).exitKind =
          ExitKind.interrupted →
      (Pipeline.run max_cycles outcomes fuel init).is_running = false := by
  intro mc out fuel init
  unfold Pipeline.run
  cases hneg : pyNegative mc with
  | true => simp [hneg]
  | false =>
    simp only [hneg, Bool.false_eq_true, if_false]
    rcases hr : runLoop mc out fuel true 0 with ⟨b, c, ex⟩
    cases ex <;> simp

/-- Witness for C6: a capped all-normal run and an interrupted run
both leave the flag cleared. -/
theorem run_clears_flag_on_listed_exits_witness :
    (Pipeline.run (some 2) (fun _ => CycleOutcome.normal) 10
        true).is_running = false ∧
    (Pipeline.run none (fun _ => CycleOutcome.interrupt) 5
        true).is_running = false :=
  ⟨run_clears_flag_on_listed_exits (some 2) (fun _ => CycleOutcome.normal)
      10 true (Or.inl (by decide)),
   run_clears_flag_on_listed_exits none (fun _ => CycleOutcome.interrupt)
      5 true (Or.inr (by decide))⟩

/-- With `max_cycles = 0` the cap guard is falsy, so an all-normal run
consumes every unit of fuel without breaking: the loop never
terminates on its own. -/
theorem runLoop_zero_cap (outcomes : Nat → CycleOutcome)
    (hout : ∀ n, outcomes n = CycleOutcome.normal) :
    ∀ (fuel count : Nat),
      runLoop (some 0) outcomes fuel true count =
        (true, count + fuel, LoopExit.outOfFuel) := by
  intro fuel
  induction fuel with
  | zero => intro count; simp [runLoop]
  | succ n ih =>
    intro count
    simp [runLoop, capHit, hout count, ih (count + 1)]
    omega

/-- With a strictly positive cap `m` and enough fuel, the loop always
leaves within `m` cycles: every path either breaks on the cap test or
exits through an exception, and the counter never passes `m`. -/
theorem runLoop_cap_bound (m : Int) (outcomes : Nat → CycleOutcome) :
    ∀ (fuel count : Nat), 0 < m → (count : Int) ≤ m →
      fuel ≥ (m.toNat - count) + 1 →
      (runLoop (some m) outcomes fuel true count).2.2 ≠
        LoopExit.outOfFuel ∧
      ((runLoop (some m) outcomes fuel true count).2.1 : Int) ≤ m := by
  intro fuel
  induction fuel with
  | zero => intro count hm hc hf; omega
  | succ n ih =>
    intro count hm hc hf
    by_cases hcap : capHit (some m) count = true
    · refine ⟨?_, ?_⟩ <;> simp [runLoop, hcap]
      exact hc
    · have hcap' : ¬ (m ≠ 0 ∧ m ≤ (count : Int)) := by
        simpa [capHit, ge_iff_le] using hcap
      have hlt : (count : Int) < m := by omega
      cases ho : outcomes count with
      | normal =>
        have hrec := ih (count + 1) hm (by push_cast; omega)
          (by omega)
        simpa [runLoop, hcap, ho] using hrec
      | interrupt =>
        refine ⟨?_, ?_⟩ <;> simp [runLoop, hcap, ho]
        exact hc
      | failure =>
        refine ⟨?_, ?_⟩ <;> simp [runLoop, hcap, ho]
        exact hc

/-- C9: `run(0)` is uncapped — the truthiness test makes the cap guard
false, so an all-normal run only ever stops externally — while
strictly negative caps raise `ValueError` (and nothing else does), and
a positive cap `m` bounds the loop to at most `m` cycles and forces
termination given fuel `m + 1`. -/
theorem run_cap_semantics :
    (∀ (outcomes : Nat → CycleOutcome) (fuel : Nat) (init : Bool),
      (∀ n, outcomes n = CycleOutcome.normal) →
      Pipeline.run (some 0) outcomes fuel init =
        ⟨true, fuel, ExitKind.outOfFuel⟩) ∧
    (∀ (m : Int) (outcomes : Nat → CycleOutcome) (fuel : Nat)
      (init : Bool), m < 0 →
      Pipeline.run (some m) outcomes fuel init =
        ⟨init, 0, ExitKind.valueErrored⟩) ∧
    (∀ (max_cycles : Option Int) (outcomes : Nat → CycleOutcome)
      (fuel : Nat) (init : Bool), pyNegative max_cycles = false →
      (Pipeline.run max_cycles outcomes fuel init).exitKind ≠
        ExitKind.valueErrored) ∧
    (∀ (m : Int) (outcomes : Nat → CycleOutcome) (fuel : Nat)
      (init : Bool), 0 < m → fuel ≥ m.toNat + 1 →
      (Pipeline.run (some m) outcomes fuel init).exitKind ≠
        ExitKind.outOfFuel ∧
      (Pipeline.run (some m) outcomes fuel init).cycle_count ≤
        m.toNat) := by
  refine ⟨?_, ?_, ?_, ?_⟩
  · intro out fuel init hout
    simp [Pipeline.run, pyNegative, runLoop_zero_cap out hout fuel 0]
  · intro m out fuel init hm
    simp [Pipeline.run, pyNegative, hm]
  · intro mc out fuel init hneg
    unfold Pipeline.run
    simp only [hneg, Bool.false_eq_true, if_false]
    rcases hr : runLoop mc out fuel true 0 with ⟨b, c, ex⟩
    cases ex <;> simp
  · intro m out fuel init hm hf
    have hneg : pyNegative (some m) = false := by
      simp [pyNegative]; omega
    have hbound := runLoop_cap_bound m out fuel 0 hm (by omega)
      (by omega)
    unfold Pipeline.run
    simp only [hneg, Bool.false_eq_true, if_false]
    rcases hr : runLoop (some m) out fuel true 0 with ⟨b, c, ex⟩
    rw [hr] at hbound
    simp at hbound
    obtain ⟨hex, hcle⟩ := hbound
    cases ex with
    | finished => exact ⟨by simp, by simp; omega⟩
    | interrupted => exact ⟨by simp, by simp; omega⟩
    | errored => exact ⟨by simp, by simp; omega⟩
    | outOfFuel => exact absurd rfl hex

/-- Witness for C9 at concrete runs: fuel-3 uncapped-by-zero run stays
running, a negative cap is rejected, a cap of 2 with fuel 4
terminates. -/
theorem run_cap_semantics_witness :
    Pipeline.run (some 0) (fun _ => CycleOutcome.normal) 3 false =
      ⟨true, 3, ExitKind.outOfFuel⟩ ∧
    Pipeline.run (some (-1)) (fun _ => CycleOutcome.normal) 3 true =
      ⟨true, 0, ExitKind.valueErrored⟩ ∧
    (Pipeline.run (some 2) (fun _ => CycleOutcome.normal) 4
        false).exitKind ≠ ExitKind.outOfFuel :=
  ⟨run_cap_semantics.1 (fun _ => CycleOutcome.normal) 3 false
      (fun _ => rfl),
   run_cap_semantics.2.1 (-1) (fun _ => CycleOutcome.normal) 3 true
      (by decide),
   (run_cap_semantics.2.2.2 2 (fun _ => CycleOutcome.normal) 4 false
      (by decide) (by decide)).1⟩
